import Mathlib

/-!
A shallow embedding of the `fasyslog` sender module (`src/sender`): the shared
sender bodies that `internal.rs` generates for the concrete senders, the UDP
and broadcast senders (`udp.rs`), the rustls stream sender (`rustls_impl.rs`)
and the unified `SyslogSender` dispatch (`mod.rs`).

Transport primitives (UDP sockets, the buffered TLS stream writer) are
modelled as explicit state; the operating system's disposition of each
primitive call (byte count accepted, or an I/O error) is supplied by an
`outcome` oracle argument.  Every operation returns the `io::Result` value
paired with the updated state, mirroring `&mut self` methods.
-/

/-- Models the `std::io::Error` values the sender module can observe. -/
inductive IoError where
  | notConnected
  | invalidServerName (domain : String)
  | other (msg : String)
deriving DecidableEq

/-- Models `std::io::Result`. -/
abbrev IoResult (α : Type) := Except IoError α

/-- Modelled from the spec: `crate::Severity` (its defining file is not under
src/).  Spec §3: an ordinal 0–7 fixed by the syslog specification. -/
structure Severity where
  code : Fin 8
deriving DecidableEq

/-- Modelled from the spec: `crate::SDElement` (its defining file is not under
src/).  Spec §3: an id together with an ordered sequence of name/value
parameter pairs, used only by the RFC 5424 renderer. -/
structure SDElement where
  id : String
  params : List (String × String)
deriving DecidableEq

/-- Modelled from the spec (§4.1): structured-data parameter values escape
backslash, double quote and right bracket by prefixing each with a
backslash. -/
def escapeValueChar (c : Char) : List Char :=
  if c = '\\' ∨ c = '\x22' ∨ c = ']' then ['\\', c] else [c]

/-- Escape one structured-data parameter value. -/
def escapeValue (s : String) : String :=
  ⟨s.toList.foldr (fun c acc => escapeValueChar c ++ acc) []⟩

/-- Modelled from the spec (§4.1): one structured-data element rendered as a
bracketed id followed by space-separated name="value" pairs. -/
def SDElement.render (e : SDElement) : String :=
  "[" ++ e.id ++
    e.params.foldr (fun p acc => " " ++ p.1 ++ "=\x22" ++ escapeValue p.2 ++ "\x22" ++ acc) "" ++
    "]"

/-- Modelled from the spec: `crate::format::SyslogContext` (format.rs is not
under src/).  Spec §3: identity fields with nil sentinels and a facility;
the `timestamp` field stands for the clock reading a render call takes, so
that both render operations are pure functions of the context and inputs. -/
structure SyslogContext where
  hostname : Option String
  appName : Option String
  procid : Option String
  facility : Nat
  timestamp : String
deriving DecidableEq

/-- Modelled from the spec: `SyslogContext::default()`, the context every
sender constructor installs. -/
def SyslogContext.default : SyslogContext :=
  { hostname := none, appName := none, procid := none, facility := 1, timestamp := "" }

/-- The nil sentinel `-` for an absent field (spec glossary). -/
def nilField : Option String → String
  | some s => s
  | none => "-"

/-- Modelled from the spec (§4.1, §6): the RFC 3164 rendering — priority in
angle brackets, timestamp, hostname and tag with context fallbacks, and the
`: MESSAGE` part only when a message is supplied. -/
def SyslogContext.format_rfc3164 (ctx : SyslogContext) (severity : Severity)
    (message : Option String) : String :=
  "<" ++ toString (ctx.facility * 8 + severity.code.val) ++ ">" ++ ctx.timestamp ++ " " ++
    nilField ctx.hostname ++ " " ++ nilField ctx.appName ++
    (match message with
     | some m => ": " ++ m
     | none => "")

/-- Modelled from the spec (§4.1, §6): the RFC 5424 rendering — version `1`,
nil sentinels for absent fields, structured-data elements concatenated with no
separator or the bare nil sentinel when none are supplied. -/
def SyslogContext.format_rfc5424 (ctx : SyslogContext) (severity : Severity)
    (msgid : Option String) (elements : List SDElement) (message : Option String) : String :=
  "<" ++ toString (ctx.facility * 8 + severity.code.val) ++ ">1 " ++ ctx.timestamp ++ " " ++
    nilField ctx.hostname ++ " " ++ nilField ctx.appName ++ " " ++ nilField ctx.procid ++ " " ++
    nilField msgid ++ " " ++
    (match elements with
     | [] => "-"
     | es => String.join (es.map SDElement.render)) ++
    (match message with
     | some m => " " ++ m
     | none => "")

/-- A resolved socket address. -/
structure SockAddr where
  ip : String
  port : Nat
deriving DecidableEq

/-- One invocation of a datagram-socket send primitive: the
connection-oriented `UdpSocket::send` carries no destination, while
`UdpSocket::send_to` names one explicitly. -/
inductive DatagramOp where
  | send (payload : String)
  | sendTo (payload : String) (dest : SockAddr)
deriving DecidableEq

/-- State of a `std::net::UdpSocket`: its configuration, plus — for the
embedding — the log of send-primitive invocations (`attempts`) and of the
packets the OS actually emitted (`delivered`).  The two logs model the
network side, not fields of the Rust struct. -/
structure UdpSocket where
  connected : Option SockAddr
  broadcastEnabled : Bool
  attempts : List DatagramOp
  delivered : List (SockAddr × String)
deriving DecidableEq

/-- `UdpSocket::send`: sends to the connected peer; per the std library it
fails with a not-connected error when the socket has no peer; otherwise the
OS disposition (byte count accepted, or an error) is supplied by `outcome`. -/
def UdpSocket.sendPrim (sock : UdpSocket) (payload : String) (outcome : IoResult Nat) :
    IoResult Nat × UdpSocket :=
  let sock' := { sock with attempts := sock.attempts ++ [DatagramOp.send payload] }
  match sock.connected with
  | none => (Except.error IoError.notConnected, sock')
  | some dest =>
    match outcome with
    | Except.error e => (Except.error e, sock')
    | Except.ok n => (Except.ok n, { sock' with delivered := sock'.delivered ++ [(dest, payload)] })

/-- `UdpSocket::send_to`: sends to an explicit destination regardless of any
connected peer. -/
def UdpSocket.sendToPrim (sock : UdpSocket) (payload : String) (dest : SockAddr)
    (outcome : IoResult Nat) : IoResult Nat × UdpSocket :=
  let sock' := { sock with attempts := sock.attempts ++ [DatagramOp.sendTo payload dest] }
  match outcome with
  | Except.error e => (Except.error e, sock')
  | Except.ok n => (Except.ok n, { sock' with delivered := sock'.delivered ++ [(dest, payload)] })

/-- Digits to a number, most significant first. -/
def digitsToNat (cs : List Char) : Nat :=
  cs.foldl (fun n c => n * 10 + (c.toNat - 48)) 0

/-- The trailing digit run of a reversed character list. -/
def takeDigits : List Char → List Char
  | [] => []
  | c :: cs => if c.isDigit then c :: takeDigits cs else []

/-- Port of a literal `host:port` address string: the digit run after the
final colon. -/
def portOfString (s : String) : Nat :=
  digitsToNat (takeDigits s.toList.reverse).reverse

/-- Host part of a literal `host:port` address string. -/
def hostOfString (s : String) : String :=
  ⟨((s.toList.reverse.dropWhile Char.isDigit).reverse).dropLast⟩

/-- Models `ToSocketAddrs` resolution of a literal `host:port` string. -/
def resolveAddr (s : String) : SockAddr :=
  { ip := hostOfString s, port := portOfString s }

/-- udp.rs `UdpSender`: a bound-and-connected UDP socket plus one formatting
context. -/
structure UdpSender where
  socket : UdpSocket
  context : SyslogContext
deriving DecidableEq

/-- OS dispositions of the two fallible steps of `UdpSender::connect`:
`UdpSocket::bind(local)?` and `socket.connect(remote)?`. -/
structure UdpEnv where
  bindErr : Option IoError
  connectErr : Option IoError

/-- udp.rs `UdpSender::connect`: bind the local endpoint, connect the remote
one, and start from the default context. -/
def UdpSender.connect (env : UdpEnv) (localAddr remoteAddr : String) : IoResult UdpSender :=
  match env.bindErr with
  | some e => Except.error e
  | none =>
    match env.connectErr with
    | some e => Except.error e
    | none =>
      Except.ok
        { socket :=
            { connected := some (resolveAddr remoteAddr), broadcastEnabled := false,
              attempts := [], delivered := [] },
          context := SyslogContext.default }

/-- udp.rs `udp()`. -/
def udp (env : UdpEnv) (localAddr remoteAddr : String) : IoResult UdpSender :=
  UdpSender.connect env localAddr remoteAddr

/-- udp.rs `udp_well_known()`: sends to 127.0.0.1 at the well-known plaintext
port 514. -/
def udp_well_known (env : UdpEnv) : IoResult UdpSender :=
  udp env "0.0.0.0:0" "127.0.0.1:514"

/-- udp.rs `UdpSender::set_context` (takes `&mut self`). -/
def UdpSender.set_context (s : UdpSender) (context : SyslogContext) : UdpSender :=
  { s with context := context }

/-- udp.rs `UdpSender::mut_context` hands out `&mut SyslogContext`; a caller
write through the reference is an application of `f` to the context. -/
def UdpSender.mut_context (s : UdpSender) (f : SyslogContext → SyslogContext) : UdpSender :=
  { s with context := f s.context }

/-- udp.rs `UdpSender::send_formatted`: `self.socket.send(formatted)?; Ok(())`
— the byte count the socket reports is discarded. -/
def UdpSender.send_formatted (s : UdpSender) (formatted : String) (outcome : IoResult Nat) :
    IoResult Unit × UdpSender :=
  match s.socket.sendPrim formatted outcome with
  | (Except.error e, sock) => (Except.error e, { s with socket := sock })
  | (Except.ok _, sock) => (Except.ok (), { s with socket := sock })

/-- internal.rs `impl_datagram_syslog_sender` instantiated for `UdpSender`
(socket field `socket`): format with the context, `self.socket.send(..)?`,
then `Ok(())` discarding the byte count. -/
def UdpSender.send_rfc3164 (s : UdpSender) (severity : Severity) (message : String)
    (outcome : IoResult Nat) : IoResult Unit × UdpSender :=
  match s.socket.sendPrim (s.context.format_rfc3164 severity (some message)) outcome with
  | (Except.error e, sock) => (Except.error e, { s with socket := sock })
  | (Except.ok _, sock) => (Except.ok (), { s with socket := sock })

/-- internal.rs `impl_datagram_syslog_sender` instantiated for `UdpSender`:
the RFC 5424 body. -/
def UdpSender.send_rfc5424 (s : UdpSender) (severity : Severity) (msgid : Option String)
    (elements : List SDElement) (message : String) (outcome : IoResult Nat) :
    IoResult Unit × UdpSender :=
  match s.socket.sendPrim (s.context.format_rfc5424 severity msgid elements (some message))
      outcome with
  | (Except.error e, sock) => (Except.error e, { s with socket := sock })
  | (Except.ok _, sock) => (Except.ok (), { s with socket := sock })

/-- Neither udp.rs nor the datagram macro of internal.rs defines a `flush`
for `UdpSender`; the absence is recorded explicitly so the dispatch layer can
be compared against it. -/
def UdpSender.flushOp : Option (UdpSender → IoResult Nat → IoResult Unit × UdpSender) :=
  none

/-- udp.rs `BroadcastSender`: an unconnected, broadcast-enabled UDP socket,
the fixed broadcast destination, and one formatting context. -/
structure BroadcastSender where
  socket : UdpSocket
  remote : SockAddr
  context : SyslogContext
deriving DecidableEq

/-- udp.rs `BroadcastSender::connect(port)`: bind `0.0.0.0:0`, then
`set_broadcast(true)?`, and store the address that
`SocketAddr::from_str("255.255.255.255:{port}")` yields (which cannot fail on
this literal) as the remote.  The socket is never connected to a peer. -/
def BroadcastSender.connect (bindErr setBroadcastErr : Option IoError) (port : Nat) :
    IoResult BroadcastSender :=
  match bindErr with
  | some e => Except.error e
  | none =>
    match setBroadcastErr with
    | some e => Except.error e
    | none =>
      Except.ok
        { socket :=
            { connected := none, broadcastEnabled := true, attempts := [], delivered := [] },
          remote := { ip := "255.255.255.255", port := port },
          context := SyslogContext.default }

/-- udp.rs `broadcast()`. -/
def broadcast (bindErr setBroadcastErr : Option IoError) (port : Nat) :
    IoResult BroadcastSender :=
  BroadcastSender.connect bindErr setBroadcastErr port

/-- udp.rs `broadcast_well_known()`: broadcast to the well-known port 514. -/
def broadcast_well_known (bindErr setBroadcastErr : Option IoError) :
    IoResult BroadcastSender :=
  broadcast bindErr setBroadcastErr 514

/-- udp.rs `BroadcastSender::set_context` (takes `&mut self`). -/
def BroadcastSender.set_context (s : BroadcastSender) (context : SyslogContext) :
    BroadcastSender :=
  { s with context := context }

/-- udp.rs `BroadcastSender::mut_context`. -/
def BroadcastSender.mut_context (s : BroadcastSender) (f : SyslogContext → SyslogContext) :
    BroadcastSender :=
  { s with context := f s.context }

/-- udp.rs `BroadcastSender::send_formatted`:
`self.socket.send_to(formatted, self.remote)?; Ok(())`. -/
def BroadcastSender.send_formatted (s : BroadcastSender) (formatted : String)
    (outcome : IoResult Nat) : IoResult Unit × BroadcastSender :=
  match s.socket.sendToPrim formatted s.remote outcome with
  | (Except.error e, sock) => (Except.error e, { s with socket := sock })
  | (Except.ok _, sock) => (Except.ok (), { s with socket := sock })

/-- internal.rs `impl_datagram_syslog_sender` instantiated for
`BroadcastSender` (socket field `socket`): the generated body calls the
connectionless `self.socket.send(..)`, not `send_to`, so the stored `remote`
plays no part in it. -/
def BroadcastSender.send_rfc3164 (s : BroadcastSender) (severity : Severity) (message : String)
    (outcome : IoResult Nat) : IoResult Unit × BroadcastSender :=
  match s.socket.sendPrim (s.context.format_rfc3164 severity (some message)) outcome with
  | (Except.error e, sock) => (Except.error e, { s with socket := sock })
  | (Except.ok _, sock) => (Except.ok (), { s with socket := sock })

/-- internal.rs `impl_datagram_syslog_sender` instantiated for
`BroadcastSender`: the RFC 5424 body, likewise via the connectionless
`send`. -/
def BroadcastSender.send_rfc5424 (s : BroadcastSender) (severity : Severity)
    (msgid : Option String) (elements : List SDElement) (message : String)
    (outcome : IoResult Nat) : IoResult Unit × BroadcastSender :=
  match s.socket.sendPrim (s.context.format_rfc5424 severity msgid elements (some message))
      outcome with
  | (Except.error e, sock) => (Except.error e, { s with socket := sock })
  | (Except.ok _, sock) => (Except.ok (), { s with socket := sock })

/-- A `BufWriter` over the TLS stream: `buffered` is the ordered sequence of
writes the writer accepted and still holds, `pushed` what `flush` already
forced out to the underlying stream. -/
structure StreamWriter where
  buffered : List String
  pushed : List String
deriving DecidableEq

/-- One buffered write: `write!` hands the whole formatted chunk to the
writer in one call; the oracle decides whether the writer accepts it, and on
failure nothing of the chunk is retained. -/
def StreamWriter.writeAll (w : StreamWriter) (chunk : String) (outcome : IoResult Nat) :
    IoResult Unit × StreamWriter :=
  match outcome with
  | Except.error e => (Except.error e, w)
  | Except.ok _ => (Except.ok (), { w with buffered := w.buffered ++ [chunk] })

/-- `BufWriter::flush`: force all buffered bytes out to the underlying
stream. -/
def StreamWriter.flushAll (w : StreamWriter) (outcome : IoResult Nat) :
    IoResult Unit × StreamWriter :=
  match outcome with
  | Except.error e => (Except.error e, w)
  | Except.ok _ => (Except.ok (), { buffered := [], pushed := w.pushed ++ w.buffered })

/-- rustls_impl.rs `RustlsSender`: the buffered TLS stream writer, one
formatting context, and the configurable stream-framing trailer
(source field name: the message postfix; `Cow` borrowed "\r\n" by
default). -/
structure RustlsSender where
  writer : StreamWriter
  context : SyslogContext
  postfixStr : String
deriving DecidableEq

/-- A certificate as the trust-store assembly sees it: `wellFormed` models
whether `RootCertStore::add` (an external rustls check on the DER) accepts
it. -/
structure Cert where
  name : String
  wellFormed : Bool
deriving DecidableEq

/-- Models `rustls_native_certs::CertificateResult`: the certificates the
loader found, plus the errors it reports alongside them. -/
structure CertificateResult where
  certs : List Cert
  errors : List String
deriving DecidableEq

/-- Models `rustls::ClientConfig` as far as the sender module observes it:
the root certificates it was built with (client auth is always `none`). -/
structure ClientConfig where
  roots : List Cert
deriving DecidableEq

/-- External outcomes a TLS sender constructor can encounter:
`ServerName::try_from` validity of the domain, the disposition of
`TcpStream::connect`, of `ClientConnection::new`, and what
`load_native_certs()` returns. -/
structure TlsEnv where
  serverNameValid : String → Bool
  tcpConnectErr : Option IoError
  clientConnErr : Option IoError
  nativeCerts : CertificateResult

/-- The result of a Rust call that may also abort the process: a returned
`Ok`, a returned `Err`, or a panic (which reaches the caller by unwinding,
not as a return value). -/
inductive RustOutcome (α : Type) where
  | ok (value : α)
  | ioErr (e : IoError)
  | aborted (msg : String)
deriving DecidableEq

/-- Whether a `RustOutcome` is a returned error result. -/
def RustOutcome.isIoErr {α : Type} : RustOutcome α → Bool
  | RustOutcome.ioErr _ => true
  | _ => false

/-- rustls_impl.rs `RustlsSender::connect`: interpret the domain as a
`ServerName` (`map_err(io::Error::other)?`), `TcpStream::connect(addr)?`,
`ClientConnection::new(config, domain)` (`map_err(..)?`), then wrap the
stream in a fresh `BufWriter` with the default context and the default
postfix "\r\n". -/
def RustlsSender.connect (env : TlsEnv) (addr domain : String) (config : ClientConfig) :
    IoResult RustlsSender :=
  if env.serverNameValid domain then
    match env.tcpConnectErr with
    | some e => Except.error e
    | none =>
      match env.clientConnErr with
      | some e => Except.error e
      | none =>
        Except.ok
          { writer := { buffered := [], pushed := [] },
            context := SyslogContext.default,
            postfixStr := "\r\n" }
  else Except.error (IoError.invalidServerName domain)

/-- rustls_impl.rs `rustls_with()`. -/
def rustls_with (env : TlsEnv) (addr domain : String) (config : ClientConfig) :
    IoResult RustlsSender :=
  RustlsSender.connect env addr domain config

/-- rustls_impl.rs `rustls()` trust-store assembly:
`for cert in load_native_certs().certs { roots.add(cert).unwrap() }` — the
first certificate the store rejects panics the process instead of producing
an error result. -/
def addAllRoots : List Cert → RustOutcome (List Cert)
  | [] => RustOutcome.ok []
  | c :: cs =>
    if c.wellFormed then
      match addAllRoots cs with
      | RustOutcome.ok roots => RustOutcome.ok (c :: roots)
      | r => r
    else RustOutcome.aborted "called unwrap on an Err value while adding a native certificate"

/-- rustls_impl.rs `rustls(addr, domain)`: assemble the native trust store
(only the loader's `certs` field is read; its `errors` field is never
consulted), build the client config with it and no client auth, then delegate
to `rustls_with`. -/
def rustls (env : TlsEnv) (addr domain : String) : RustOutcome RustlsSender :=
  match addAllRoots env.nativeCerts.certs with
  | RustOutcome.ok roots =>
    match rustls_with env addr domain { roots := roots } with
    | Except.ok s => RustOutcome.ok s
    | Except.error e => RustOutcome.ioErr e
  | RustOutcome.ioErr e => RustOutcome.ioErr e
  | RustOutcome.aborted m => RustOutcome.aborted m

/-- rustls_impl.rs `rustls_well_known(domain)`: target the well-known
encrypted port — the address string handed to `rustls` is `domain:6514`. -/
def rustls_well_known (env : TlsEnv) (domain : String) : RustOutcome RustlsSender :=
  rustls env (domain ++ ":6514") domain

/-- internal.rs `impl_stream_syslog_sender` instantiated for `RustlsSender`
(stream field `writer`): format with the context and hand the rendered
message to the writer with `write!(&mut self.writer, ..)`.  Note that the
generated body writes only the rendered message; the sender's postfix field
is not consulted here. -/
def RustlsSender.send_rfc3164 (s : RustlsSender) (severity : Severity) (message : String)
    (outcome : IoResult Nat) : IoResult Unit × RustlsSender :=
  let rw := s.writer.writeAll (s.context.format_rfc3164 severity (some message)) outcome
  (rw.1, { s with writer := rw.2 })

/-- internal.rs `impl_stream_syslog_sender` instantiated for `RustlsSender`:
the RFC 5424 body, likewise a single `write!` of the rendered message with no
postfix. -/
def RustlsSender.send_rfc5424 (s : RustlsSender) (severity : Severity) (msgid : Option String)
    (elements : List SDElement) (message : String) (outcome : IoResult Nat) :
    IoResult Unit × RustlsSender :=
  let rw := s.writer.writeAll
    (s.context.format_rfc5424 severity msgid elements (some message)) outcome
  (rw.1, { s with writer := rw.2 })

/-- internal.rs stream macro `flush`: `self.writer.flush()`. -/
def RustlsSender.flush (s : RustlsSender) (outcome : IoResult Nat) :
    IoResult Unit × RustlsSender :=
  let rw := s.writer.flushAll outcome
  (rw.1, { s with writer := rw.2 })

/-- Modelled from the spec: the stream senders' `send_formatted` body
(macro `impl_syslog_stream_send_formatted`, invoked in rustls_impl.rs but not
defined under src/).  Spec §4.2: write the caller-supplied bytes verbatim,
with the configurable postfix appended for stream framing, as one buffered
write (spec §3 invariant: exactly one buffered write per stream send
call). -/
def RustlsSender.send_formatted (s : RustlsSender) (formatted : String)
    (outcome : IoResult Nat) : IoResult Unit × RustlsSender :=
  let rw := s.writer.writeAll (formatted ++ s.postfixStr) outcome
  (rw.1, { s with writer := rw.2 })

/-- rustls_impl.rs `set_postfix` (takes `&mut self`). -/
def RustlsSender.setPostfixStr (s : RustlsSender) (p : String) : RustlsSender :=
  { s with postfixStr := p }

/-- rustls_impl.rs `set_context`:
`pub fn set_context(mut self, context: SyslogContext)` — the method takes the
sender by value and returns `()`, so the updated sender is dropped when the
call returns and nothing of it reaches the caller. -/
def RustlsSender.set_context (s : RustlsSender) (context : SyslogContext) : Unit :=
  let _dropped : RustlsSender := { s with context := context }
  ()

/-- rustls_impl.rs `mut_context` hands out `&mut SyslogContext`; a caller
write through the reference is an application of `f` to the context, with
every other field untouched. -/
def RustlsSender.mut_context (s : RustlsSender) (f : SyslogContext → SyslogContext) :
    RustlsSender :=
  { s with context := f s.context }

/-- Modelled from the spec: tcp_impl.rs is not under src/.  Spec §2/§9: the
plain TCP stream sender carries the same state shape and the same
macro-generated operations as the other stream senders. -/
abbrev TcpSender := RustlsSender

/-- Modelled from the spec: native_tls_impl.rs is not under src/; the
native-tls stream sender mirrors the stream senders. -/
abbrev NativeTlsSender := RustlsSender

/-- Modelled from the spec: unix_impl.rs is not under src/; the stream-style
local-IPC sender mirrors the stream senders (spec §4.2). -/
abbrev UnixStreamSender := RustlsSender

/-- Modelled from the spec: unix_impl.rs is not under src/; the
datagram-style local-IPC sender mirrors the packet sender (spec §4.2). -/
abbrev UnixDatagramSender := UdpSender

/-- mod.rs `SyslogSender`: static dispatch over the concrete sender types. -/
inductive SyslogSender where
  | Tcp (sender : TcpSender)
  | Udp (sender : UdpSender)
  | NativeTlsSender (sender : NativeTlsSender)
  | RustlsSender (sender : RustlsSender)
  | UnixDatagram (sender : UnixDatagramSender)
  | UnixStream (sender : UnixStreamSender)

/-- mod.rs `SyslogSender::send_rfc3164`: match on the variant and call the
variant's own `send_rfc3164`. -/
def SyslogSender.send_rfc3164 (s : SyslogSender) (severity : Severity) (message : String)
    (outcome : IoResult Nat) : IoResult Unit × SyslogSender :=
  match s with
  | SyslogSender.Tcp sender =>
    let r := RustlsSender.send_rfc3164 sender severity message outcome
    (r.1, SyslogSender.Tcp r.2)
  | SyslogSender.Udp sender =>
    let r := UdpSender.send_rfc3164 sender severity message outcome
    (r.1, SyslogSender.Udp r.2)
  | SyslogSender.NativeTlsSender sender =>
    let r := RustlsSender.send_rfc3164 sender severity message outcome
    (r.1, SyslogSender.NativeTlsSender r.2)
  | SyslogSender.RustlsSender sender =>
    let r := RustlsSender.send_rfc3164 sender severity message outcome
    (r.1, SyslogSender.RustlsSender r.2)
  | SyslogSender.UnixDatagram sender =>
    let r := UdpSender.send_rfc3164 sender severity message outcome
    (r.1, SyslogSender.UnixDatagram r.2)
  | SyslogSender.UnixStream sender =>
    let r := RustlsSender.send_rfc3164 sender severity message outcome
    (r.1, SyslogSender.UnixStream r.2)

/-- mod.rs `SyslogSender::send_rfc5424`: pure dispatch to the variant's
`send_rfc5424`. -/
def SyslogSender.send_rfc5424 (s : SyslogSender) (severity : Severity) (msgid : Option String)
    (elements : List SDElement) (message : String) (outcome : IoResult Nat) :
    IoResult Unit × SyslogSender :=
  match s with
  | SyslogSender.Tcp sender =>
    let r := RustlsSender.send_rfc5424 sender severity msgid elements message outcome
    (r.1, SyslogSender.Tcp r.2)
  | SyslogSender.Udp sender =>
    let r := UdpSender.send_rfc5424 sender severity msgid elements message outcome
    (r.1, SyslogSender.Udp r.2)
  | SyslogSender.NativeTlsSender sender =>
    let r := RustlsSender.send_rfc5424 sender severity msgid elements message outcome
    (r.1, SyslogSender.NativeTlsSender r.2)
  | SyslogSender.RustlsSender sender =>
    let r := RustlsSender.send_rfc5424 sender severity msgid elements message outcome
    (r.1, SyslogSender.RustlsSender r.2)
  | SyslogSender.UnixDatagram sender =>
    let r := UdpSender.send_rfc5424 sender severity msgid elements message outcome
    (r.1, SyslogSender.UnixDatagram r.2)
  | SyslogSender.UnixStream sender =>
    let r := RustlsSender.send_rfc5424 sender severity msgid elements message outcome
    (r.1, SyslogSender.UnixStream r.2)

/-- mod.rs `SyslogSender::send_formatted`: pure dispatch to the variant's
`send_formatted`. -/
def SyslogSender.send_formatted (s : SyslogSender) (formatted : String)
    (outcome : IoResult Nat) : IoResult Unit × SyslogSender :=
  match s with
  | SyslogSender.Tcp sender =>
    let r := RustlsSender.send_formatted sender formatted outcome
    (r.1, SyslogSender.Tcp r.2)
  | SyslogSender.Udp sender =>
    let r := UdpSender.send_formatted sender formatted outcome
    (r.1, SyslogSender.Udp r.2)
  | SyslogSender.NativeTlsSender sender =>
    let r := RustlsSender.send_formatted sender formatted outcome
    (r.1, SyslogSender.NativeTlsSender r.2)
  | SyslogSender.RustlsSender sender =>
    let r := RustlsSender.send_formatted sender formatted outcome
    (r.1, SyslogSender.RustlsSender r.2)
  | SyslogSender.UnixDatagram sender =>
    let r := UdpSender.send_formatted sender formatted outcome
    (r.1, SyslogSender.UnixDatagram r.2)
  | SyslogSender.UnixStream sender =>
    let r := RustlsSender.send_formatted sender formatted outcome
    (r.1, SyslogSender.UnixStream r.2)

/-- mod.rs `SyslogSender::flush`: the stream variants delegate to the
variant's `flush`; the datagram variants (`Udp(_)`, `UnixDatagram(_)`) bind
nothing and the dispatch arm itself returns `Ok(())`. -/
def SyslogSender.flush (s : SyslogSender) (outcome : IoResult Nat) :
    IoResult Unit × SyslogSender :=
  match s with
  | SyslogSender.Tcp sender =>
    let r := RustlsSender.flush sender outcome
    (r.1, SyslogSender.Tcp r.2)
  | SyslogSender.Udp _ => (Except.ok (), s)
  | SyslogSender.NativeTlsSender sender =>
    let r := RustlsSender.flush sender outcome
    (r.1, SyslogSender.NativeTlsSender r.2)
  | SyslogSender.RustlsSender sender =>
    let r := RustlsSender.flush sender outcome
    (r.1, SyslogSender.RustlsSender r.2)
  | SyslogSender.UnixDatagram _ => (Except.ok (), s)
  | SyslogSender.UnixStream sender =>
    let r := RustlsSender.flush sender outcome
    (r.1, SyslogSender.UnixStream r.2)

/-- A concrete formatting context used for evaluations. -/
def ctx1 : SyslogContext :=
  { hostname := some "host", appName := some "app", procid := none, facility := 1,
    timestamp := "Oct 11 22:14:15" }

/-- Severity notice (ordinal 5). -/
def sev5 : Severity := { code := 5 }

/-- A connected UDP socket with empty logs. -/
def sock1 : UdpSocket :=
  { connected := some { ip := "127.0.0.1", port := 514 }, broadcastEnabled := false,
    attempts := [], delivered := [] }

/-- A concrete UDP sender. -/
def u1 : UdpSender := { socket := sock1, context := ctx1 }

/-- The UDP sender `udp_well_known` builds when both OS steps succeed. -/
def u0 : UdpSender :=
  { socket :=
      { connected := some { ip := "127.0.0.1", port := 514 }, broadcastEnabled := false,
        attempts := [], delivered := [] },
    context := SyslogContext.default }

/-- A concrete freshly-connected rustls sender (default postfix). -/
def rs1 : RustlsSender :=
  { writer := { buffered := [], pushed := [] }, context := ctx1, postfixStr := "\r\n" }

/-- The broadcast sender `BroadcastSender::connect(514)` builds when both OS
steps succeed. -/
def b1 : BroadcastSender :=
  { socket := { connected := none, broadcastEnabled := true, attempts := [], delivered := [] },
    remote := { ip := "255.255.255.255", port := 514 },
    context := SyslogContext.default }

/-- An empty client config. -/
def cfg0 : ClientConfig := { roots := [] }

/-- A TLS environment in which every external step succeeds. -/
def tlsEnvOk : TlsEnv :=
  { serverNameValid := fun _ => true, tcpConnectErr := none, clientConnErr := none,
    nativeCerts := { certs := [], errors := [] } }

/-- A TLS environment whose native certificate loader yields one certificate
that the root store rejects. -/
def tlsEnvBadCert : TlsEnv :=
  { tlsEnvOk with nativeCerts := { certs := [{ name := "selfsigned", wellFormed := false }],
                                   errors := [] } }

/-- A TLS environment in which no string is a valid TLS server name. -/
def tlsEnvBadName : TlsEnv :=
  { tlsEnvOk with serverNameValid := fun _ => false }

/-- C1: the claim states that every stream-sender `send_rfc3164` /
`send_rfc5424` writes the rendered message followed by the sender's
configurable postfix (default CRLF).  Evaluating the internal.rs stream
bodies at a concrete freshly-connected sender shows the bytes handed to the
writer are exactly the rendered message with no postfix appended, refuting
the claimed framing — while the default postfix field itself is `"\r\n"` as
claimed, it is never consulted by these sends. -/
theorem c1_rfc_sends_omit_stream_trailer :
    (RustlsSender.send_rfc3164 rs1 sev5 "hello" (Except.ok 0)).2.writer.buffered
        = [ctx1.format_rfc3164 sev5 (some "hello")]
    ∧ (RustlsSender.send_rfc3164 rs1 sev5 "hello" (Except.ok 0)).2.writer.buffered
        ≠ [ctx1.format_rfc3164 sev5 (some "hello") ++ rs1.postfixStr]
    ∧ (RustlsSender.send_rfc5424 rs1 sev5 none [] "hello" (Except.ok 0)).2.writer.buffered
        = [ctx1.format_rfc5424 sev5 none [] (some "hello")]
    ∧ (RustlsSender.send_rfc5424 rs1 sev5 none [] "hello" (Except.ok 0)).2.writer.buffered
        ≠ [ctx1.format_rfc5424 sev5 none [] (some "hello") ++ rs1.postfixStr]
    ∧ rs1.postfixStr = "\r\n" := by
  refine ⟨rfl, ?_, rfl, ?_, rfl⟩ <;> decide

/-- C2 counterexample: for the `Udp` variant, `flush` on the unified sender
cannot be the result of calling an identically-named operation on the wrapped
`UdpSender`, because `UdpSender` defines no flush operation at all
(`UdpSender.flushOp = none`); yet the unified sender's `flush` on that
variant returns `Ok(())`, behavior contributed by the dispatch arm itself. -/
theorem c2_udp_flush_not_a_dispatch :
    UdpSender.flushOp = none
    ∧ SyslogSender.flush (SyslogSender.Udp u1) (Except.ok 0)
        = (Except.ok (), SyslogSender.Udp u1) :=
  ⟨rfl, rfl⟩

/-- C2 (amended): `send_rfc3164`, `send_rfc5424` and `send_formatted` on
every variant of the unified sender, and `flush` on the stream variants,
return exactly the result of the identically-named operation of the wrapped
concrete sender; for `flush` on the datagram variants (`Udp`,
`UnixDatagram`) the concrete senders define no flush and the dispatch arm
itself returns `Ok(())`, leaving the wrapped sender untouched. -/
theorem c2_unified_dispatch_amended :
    (∀ t sev m o, SyslogSender.send_rfc3164 (SyslogSender.Tcp t) sev m o
        = ((RustlsSender.send_rfc3164 t sev m o).1,
            SyslogSender.Tcp (RustlsSender.send_rfc3164 t sev m o).2))
    ∧ (∀ u sev m o, SyslogSender.send_rfc3164 (SyslogSender.Udp u) sev m o
        = ((UdpSender.send_rfc3164 u sev m o).1,
            SyslogSender.Udp (UdpSender.send_rfc3164 u sev m o).2))
    ∧ (∀ t sev m o, SyslogSender.send_rfc3164 (SyslogSender.NativeTlsSender t) sev m o
        = ((RustlsSender.send_rfc3164 t sev m o).1,
            SyslogSender.NativeTlsSender (RustlsSender.send_rfc3164 t sev m o).2))
    ∧ (∀ t sev m o, SyslogSender.send_rfc3164 (SyslogSender.RustlsSender t) sev m o
        = ((RustlsSender.send_rfc3164 t sev m o).1,
            SyslogSender.RustlsSender (RustlsSender.send_rfc3164 t sev m o).2))
    ∧ (∀ u sev m o, SyslogSender.send_rfc3164 (SyslogSender.UnixDatagram u) sev m o
        = ((UdpSender.send_rfc3164 u sev m o).1,
            SyslogSender.UnixDatagram (UdpSender.send_rfc3164 u sev m o).2))
    ∧ (∀ t sev m o, SyslogSender.send_rfc3164 (SyslogSender.UnixStream t) sev m o
        = ((RustlsSender.send_rfc3164 t sev m o).1,
            SyslogSender.UnixStream (RustlsSender.send_rfc3164 t sev m o).2))
    ∧ (∀ t sev mi el m o, SyslogSender.send_rfc5424 (SyslogSender.Tcp t) sev mi el m o
        = ((RustlsSender.send_rfc5424 t sev mi el m o).1,
            SyslogSender.Tcp (RustlsSender.send_rfc5424 t sev mi el m o).2))
    ∧ (∀ u sev mi el m o, SyslogSender.send_rfc5424 (SyslogSender.Udp u) sev mi el m o
        = ((UdpSender.send_rfc5424 u sev mi el m o).1,
            SyslogSender.Udp (UdpSender.send_rfc5424 u sev mi el m o).2))
    ∧ (∀ t sev mi el m o,
        SyslogSender.send_rfc5424 (SyslogSender.NativeTlsSender t) sev mi el m o
        = ((RustlsSender.send_rfc5424 t sev mi el m o).1,
            SyslogSender.NativeTlsSender (RustlsSender.send_rfc5424 t sev mi el m o).2))
    ∧ (∀ t sev mi el m o,
        SyslogSender.send_rfc5424 (SyslogSender.RustlsSender t) sev mi el m o
        = ((RustlsSender.send_rfc5424 t sev mi el m o).1,
            SyslogSender.RustlsSender (RustlsSender.send_rfc5424 t sev mi el m o).2))
    ∧ (∀ u sev mi el m o,
        SyslogSender.send_rfc5424 (SyslogSender.UnixDatagram u) sev mi el m o
        = ((UdpSender.send_rfc5424 u sev mi el m o).1,
            SyslogSender.UnixDatagram (UdpSender.send_rfc5424 u sev mi el m o).2))
    ∧ (∀ t sev mi el m o,
        SyslogSender.send_rfc5424 (SyslogSender.UnixStream t) sev mi el m o
        = ((RustlsSender.send_rfc5424 t sev mi el m o).1,
            SyslogSender.UnixStream (RustlsSender.send_rfc5424 t sev mi el m o).2))
    ∧ (∀ t f o, SyslogSender.send_formatted (SyslogSender.Tcp t) f o
        = ((RustlsSender.send_formatted t f o).1,
            SyslogSender.Tcp (RustlsSender.send_formatted t f o).2))
    ∧ (∀ u f o, SyslogSender.send_formatted (SyslogSender.Udp u) f o
        = ((UdpSender.send_formatted u f o).1,
            SyslogSender.Udp (UdpSender.send_formatted u f o).2))
    ∧ (∀ t f o, SyslogSender.send_formatted (SyslogSender.NativeTlsSender t) f o
        = ((RustlsSender.send_formatted t f o).1,
            SyslogSender.NativeTlsSender (RustlsSender.send_formatted t f o).2))
    ∧ (∀ t f o, SyslogSender.send_formatted (SyslogSender.RustlsSender t) f o
        = ((RustlsSender.send_formatted t f o).1,
            SyslogSender.RustlsSender (RustlsSender.send_formatted t f o).2))
    ∧ (∀ u f o, SyslogSender.send_formatted (SyslogSender.UnixDatagram u) f o
        = ((UdpSender.send_formatted u f o).1,
            SyslogSender.UnixDatagram (UdpSender.send_formatted u f o).2))
    ∧ (∀ t f o, SyslogSender.send_formatted (SyslogSender.UnixStream t) f o
        = ((RustlsSender.send_formatted t f o).1,
            SyslogSender.UnixStream (RustlsSender.send_formatted t f o).2))
    ∧ (∀ t o, SyslogSender.flush (SyslogSender.Tcp t) o
        = ((RustlsSender.flush t o).1, SyslogSender.Tcp (RustlsSender.flush t o).2))
    ∧ (∀ t o, SyslogSender.flush (SyslogSender.NativeTlsSender t) o
        = ((RustlsSender.flush t o).1, SyslogSender.NativeTlsSender (RustlsSender.flush t o).2))
    ∧ (∀ t o, SyslogSender.flush (SyslogSender.RustlsSender t) o
        = ((RustlsSender.flush t o).1, SyslogSender.RustlsSender (RustlsSender.flush t o).2))
    ∧ (∀ t o, SyslogSender.flush (SyslogSender.UnixStream t) o
        = ((RustlsSender.flush t o).1, SyslogSender.UnixStream (RustlsSender.flush t o).2))
    ∧ (∀ u o, SyslogSender.flush (SyslogSender.Udp u) o = (Except.ok (), SyslogSender.Udp u))
    ∧ (∀ u o, SyslogSender.flush (SyslogSender.UnixDatagram u) o
        = (Except.ok (), SyslogSender.UnixDatagram u)) := by
  repeat' apply And.intro
  all_goals intros
  all_goals rfl

/-- C5: for the packet-oriented variants of the unified sender (`Udp`,
`UnixDatagram`), `flush` returns `Ok(())` for every sender state and every
environment disposition, and the returned sender is the input sender
unchanged — in particular its socket logs are untouched, so nothing is
transmitted. -/
theorem c5_datagram_flush_is_noop :
    (∀ u o, SyslogSender.flush (SyslogSender.Udp u) o = (Except.ok (), SyslogSender.Udp u))
    ∧ (∀ u o, SyslogSender.flush (SyslogSender.UnixDatagram u) o
        = (Except.ok (), SyslogSender.UnixDatagram u)) :=
  ⟨fun _ _ => rfl, fun _ _ => rfl⟩

/-- C9: `RustlsSender::set_context` takes the sender by value and returns
`()`: its result is independent of the supplied context (so that context can
never influence a later send — no sender survives the call to be sent on),
and the only context mutation available on a retained sender, `mut_context`,
changes the context alone, leaving the writer and the postfix fields
unchanged. -/
theorem c9_set_context_consumes_sender :
    (∀ s c c', RustlsSender.set_context s c = RustlsSender.set_context s c')
    ∧ (∀ s c, RustlsSender.set_context s c = ())
    ∧ (∀ s f, (RustlsSender.mut_context s f).writer = s.writer
        ∧ (RustlsSender.mut_context s f).postfixStr = s.postfixStr
        ∧ (RustlsSender.mut_context s f).context = f s.context) :=
  ⟨fun _ _ _ => rfl, fun _ _ => rfl, fun _ _ => ⟨rfl, rfl, rfl⟩⟩

/-- C4: the claim states that each datagram-sender send call performs exactly
one socket send, producing exactly one outbound packet.  For
`BroadcastSender` the datagram-macro bodies invoke the connectionless
`UdpSocket::send` on the never-connected broadcast socket: a `send_rfc3164`
call performs exactly one socket-send invocation, but that invocation fails
with a not-connected error and no packet is produced. -/
theorem c4_broadcast_rfc_send_emits_no_packet :
    BroadcastSender.connect none none 514 = Except.ok b1
    ∧ (BroadcastSender.send_rfc3164 b1 sev5 "hello" (Except.ok 0)).2.socket.attempts
        = [DatagramOp.send (SyslogContext.default.format_rfc3164 sev5 (some "hello"))]
    ∧ (BroadcastSender.send_rfc3164 b1 sev5 "hello" (Except.ok 0)).1
        = Except.error IoError.notConnected
    ∧ (BroadcastSender.send_rfc3164 b1 sev5 "hello" (Except.ok 0)).2.socket.delivered = [] :=
  ⟨rfl, rfl, rfl, rfl⟩

/-- C6: the claim states that every send call of a `BroadcastSender`
constructed with port `p` goes out via `send_to` to `255.255.255.255:p`.
`send_formatted` does exactly that (and modifies no sender field), but the
datagram-macro bodies for `send_rfc3164` / `send_rfc5424` invoke the
destination-less `UdpSocket::send`, ignoring the stored remote entirely, so
those sends are not addressed to the broadcast address at all. -/
theorem c6_broadcast_rfc_send_ignores_remote :
    BroadcastSender.connect none none 514 = Except.ok b1
    ∧ b1.remote = { ip := "255.255.255.255", port := 514 }
    ∧ (BroadcastSender.send_formatted b1 "m" (Except.ok 1)).2.socket.attempts
        = [DatagramOp.sendTo "m" { ip := "255.255.255.255", port := 514 }]
    ∧ (BroadcastSender.send_formatted b1 "m" (Except.ok 1)).2.remote = b1.remote
    ∧ (BroadcastSender.send_formatted b1 "m" (Except.ok 1)).2.context = b1.context
    ∧ (BroadcastSender.send_formatted b1 "m" (Except.ok 1)).2.socket.connected = none
    ∧ (BroadcastSender.send_formatted b1 "m" (Except.ok 1)).2.socket.broadcastEnabled = true
    ∧ (BroadcastSender.send_rfc3164 b1 sev5 "hello" (Except.ok 0)).2.socket.attempts
        = [DatagramOp.send (SyslogContext.default.format_rfc3164 sev5 (some "hello"))]
    ∧ DatagramOp.send (SyslogContext.default.format_rfc3164 sev5 (some "hello"))
        ≠ DatagramOp.sendTo (SyslogContext.default.format_rfc3164 sev5 (some "hello"))
            { ip := "255.255.255.255", port := 514 }
    ∧ (BroadcastSender.send_rfc5424 b1 sev5 none [] "hello" (Except.ok 0)).2.socket.attempts
        = [DatagramOp.send (SyslogContext.default.format_rfc5424 sev5 none [] (some "hello"))] := by
  refine ⟨rfl, rfl, rfl, rfl, rfl, rfl, rfl, rfl, ?_, rfl⟩
  intro h
  exact DatagramOp.noConfusion h

/-- C7 counterexample: with a native certificate store containing one
certificate the root store rejects, the `rustls` constructor aborts by panic
(`roots.add(cert).unwrap()`) — the construction-time trust-configuration
failure is not surfaced as the error result of the constructor call. -/
theorem c7_cert_add_failure_aborts :
    rustls tlsEnvBadCert "127.0.0.1:6514" "logs.example.com"
        = RustOutcome.aborted "called unwrap on an Err value while adding a native certificate"
    ∧ (rustls tlsEnvBadCert "127.0.0.1:6514" "logs.example.com").isIoErr = false :=
  ⟨rfl, rfl⟩

/-- C7 (amended): a domain that is not a valid TLS server identity, a TCP
connect failure, and a TLS client-connection setup failure are each surfaced
synchronously as the error result of the constructor call; however a
certificate the root store rejects during trust-store assembly aborts the
process via unwrap instead of producing an error result, and the errors the
native-certificate loader reports alongside its certificates are ignored
entirely (the constructor result does not depend on them). -/
theorem c7_constructor_failures_amended :
    (∀ env addr domain config, env.serverNameValid domain = false →
        RustlsSender.connect env addr domain config
          = Except.error (IoError.invalidServerName domain))
    ∧ (∀ env addr domain config e, env.serverNameValid domain = true →
        env.tcpConnectErr = some e →
        RustlsSender.connect env addr domain config = Except.error e)
    ∧ (∀ env addr domain config e, env.serverNameValid domain = true →
        env.tcpConnectErr = none → env.clientConnErr = some e →
        RustlsSender.connect env addr domain config = Except.error e)
    ∧ (∀ env addr domain name cs,
        env.nativeCerts.certs = { name := name, wellFormed := false } :: cs →
        rustls env addr domain
          = RustOutcome.aborted "called unwrap on an Err value while adding a native certificate")
    ∧ (∀ env addr domain errs,
        rustls { env with nativeCerts := { certs := env.nativeCerts.certs, errors := errs } }
            addr domain
          = rustls env addr domain) := by
  refine ⟨?_, ?_, ?_, ?_, ?_⟩
  · intro env addr domain config h
    simp [RustlsSender.connect, h]
  · intro env addr domain config e h1 h2
    simp [RustlsSender.connect, h1, h2]
  · intro env addr domain config e h1 h2 h3
    simp [RustlsSender.connect, h1, h2, h3]
  · intro env addr domain name cs h
    simp [rustls, h, addAllRoots]
  · intro env addr domain errs
    rfl

/-- C7 witness: the amended theorem applied at concrete inputs — an
environment rejecting every server name produces the malformed-name error
result, and the bad-certificate environment aborts. -/
theorem c7_constructor_failures_amended_witness :
    tlsEnvBadName.serverNameValid "logs.example.com" = false
    ∧ RustlsSender.connect tlsEnvBadName "127.0.0.1:6514" "logs.example.com" cfg0
        = Except.error (IoError.invalidServerName "logs.example.com")
    ∧ tlsEnvBadCert.nativeCerts.certs = [{ name := "selfsigned", wellFormed := false }]
    ∧ rustls tlsEnvBadCert "127.0.0.1:6514" "logs.example.com"
        = RustOutcome.aborted "called unwrap on an Err value while adding a native certificate" := by
  refine ⟨rfl, ?_, rfl, ?_⟩
  · exact c7_constructor_failures_amended.1 tlsEnvBadName "127.0.0.1:6514"
      "logs.example.com" cfg0 rfl
  · exact c7_constructor_failures_amended.2.2.2.1 tlsEnvBadCert "127.0.0.1:6514"
      "logs.example.com" "selfsigned" [] rfl

/-- The trailing digit run of the reversed default-port suffix stops at the
colon, whatever precedes it. -/
theorem takeDigits_port_run (l : List Char) :
    takeDigits ('4' :: '1' :: '5' :: '6' :: ':' :: l) = ['4', '1', '5', '6'] := rfl

/-- C8: `udp_well_known` connects the socket to `127.0.0.1:514` (port 514,
the well-known plaintext port), and `rustls_well_known` hands `rustls` the
address string `domain ++ ":6514"`, whose port is 6514 (the well-known
encrypted port) for every domain. -/
theorem c8_well_known_default_ports :
    (∀ env s, udp_well_known env = Except.ok s →
        s.socket.connected = some { ip := "127.0.0.1", port := 514 })
    ∧ (∀ env domain, rustls_well_known env domain = rustls env (domain ++ ":6514") domain)
    ∧ (∀ domain, portOfString (domain ++ ":6514") = 6514)
    ∧ portOfString "127.0.0.1:514" = 514
    ∧ resolveAddr "127.0.0.1:514" = { ip := "127.0.0.1", port := 514 } := by
  refine ⟨?_, fun _ _ => rfl, ?_, by decide, by decide⟩
  · intro env s h
    rcases env with ⟨be, ce⟩
    cases be <;> cases ce <;> simp [udp_well_known, udp, UdpSender.connect] at h
    subst h
    decide
  · intro domain
    show digitsToNat (takeDigits (domain ++ ":6514").toList.reverse).reverse = 6514
    have h1 : (domain ++ ":6514").toList.reverse
        = '4' :: '1' :: '5' :: '6' :: ':' :: domain.toList.reverse := by
      rw [show (domain ++ ":6514").toList
          = domain.toList ++ ([':', '6', '5', '1', '4'] : List Char) from rfl]
      rw [List.reverse_append]
      exact rfl
    rw [h1, takeDigits_port_run]
    decide

/-- C8 witness: the well-known constructors at concrete inputs. -/
theorem c8_well_known_default_ports_witness :
    udp_well_known { bindErr := none, connectErr := none } = Except.ok u0
    ∧ u0.socket.connected = some { ip := "127.0.0.1", port := 514 }
    ∧ portOfString ("logs.example.com" ++ ":6514") = 6514 := by
  refine ⟨rfl, ?_, ?_⟩
  · exact c8_well_known_default_ports.1 { bindErr := none, connectErr := none } u0 rfl
  · exact c8_well_known_default_ports.2.2.1 "logs.example.com"

/-- C10: every datagram send body is `socket-send?; Ok(())` — whenever the
socket call itself succeeds with some reported byte count `n`, whatever `n`
is (in particular smaller than the message), the operation returns `Ok(())`
and the count is discarded. -/
theorem c10_datagram_send_discards_count :
    (∀ s f n d, s.socket.connected = some d →
        (UdpSender.send_formatted s f (Except.ok n)).1 = Except.ok ())
    ∧ (∀ s sev m n d, s.socket.connected = some d →
        (UdpSender.send_rfc3164 s sev m (Except.ok n)).1 = Except.ok ())
    ∧ (∀ s sev mi el m n d, s.socket.connected = some d →
        (UdpSender.send_rfc5424 s sev mi el m (Except.ok n)).1 = Except.ok ())
    ∧ (∀ s f n, (BroadcastSender.send_formatted s f (Except.ok n)).1 = Except.ok ())
    ∧ (∀ s sev m n d, s.socket.connected = some d →
        (BroadcastSender.send_rfc3164 s sev m (Except.ok n)).1 = Except.ok ())
    ∧ (∀ s sev mi el m n d, s.socket.connected = some d →
        (BroadcastSender.send_rfc5424 s sev mi el m (Except.ok n)).1 = Except.ok ()) := by
  refine ⟨?_, ?_, ?_, fun _ _ _ => rfl, ?_, ?_⟩
  · intro s f n d h
    rcases s with ⟨⟨conn, bc, att, del⟩, ctx⟩
    cases conn
    · simp at h
    · rfl
  · intro s sev m n d h
    rcases s with ⟨⟨conn, bc, att, del⟩, ctx⟩
    cases conn
    · simp at h
    · rfl
  · intro s sev mi el m n d h
    rcases s with ⟨⟨conn, bc, att, del⟩, ctx⟩
    cases conn
    · simp at h
    · rfl
  · intro s sev m n d h
    rcases s with ⟨⟨conn, bc, att, del⟩, rem, ctx⟩
    cases conn
    · simp at h
    · rfl
  · intro s sev mi el m n d h
    rcases s with ⟨⟨conn, bc, att, del⟩, rem, ctx⟩
    cases conn
    · simp at h
    · rfl

/-- C10 witness: a connected UDP sender whose socket reports zero bytes
accepted for a non-empty rendered message still returns `Ok(())`. -/
theorem c10_datagram_send_discards_count_witness :
    (UdpSender.send_rfc3164 u1 sev5 "hello" (Except.ok 0)).1 = Except.ok ()
    ∧ 0 < (ctx1.format_rfc3164 sev5 (some "hello")).length := by
  refine ⟨?_, by decide⟩
  exact c10_datagram_send_discards_count.2.1 u1 sev5 "hello" 0
    { ip := "127.0.0.1", port := 514 } rfl

/-- C3: for every sender and every send operation, the entire rendered
message is handed to the transport write primitive in a single invocation
(the attempt log, or the single buffered-write chunk, carries the full
message, never a part of it), and whenever the operation returns an error
nothing of that message has been written (the delivered-packet log and the
writer's buffer are unchanged); on success the whole message — and nothing
less — was written. -/
theorem c3_send_atomic_handoff :
    (∀ s sev m (o : IoResult Nat),
        (UdpSender.send_rfc3164 s sev m o).2.socket.attempts
          = s.socket.attempts ++ [DatagramOp.send (s.context.format_rfc3164 sev (some m))])
    ∧ (∀ s sev m (o : IoResult Nat) e, (UdpSender.send_rfc3164 s sev m o).1 = Except.error e →
        (UdpSender.send_rfc3164 s sev m o).2.socket.delivered = s.socket.delivered)
    ∧ (∀ s sev m (o : IoResult Nat), (UdpSender.send_rfc3164 s sev m o).1 = Except.ok () →
        (UdpSender.send_rfc3164 s sev m o).2.socket.delivered.map Prod.snd
          = s.socket.delivered.map Prod.snd ++ [s.context.format_rfc3164 sev (some m)])
    ∧ (∀ s sev mi el m (o : IoResult Nat),
        (UdpSender.send_rfc5424 s sev mi el m o).2.socket.attempts
          = s.socket.attempts
              ++ [DatagramOp.send (s.context.format_rfc5424 sev mi el (some m))])
    ∧ (∀ s sev mi el m (o : IoResult Nat) e,
        (UdpSender.send_rfc5424 s sev mi el m o).1 = Except.error e →
        (UdpSender.send_rfc5424 s sev mi el m o).2.socket.delivered = s.socket.delivered)
    ∧ (∀ s sev mi el m (o : IoResult Nat),
        (UdpSender.send_rfc5424 s sev mi el m o).1 = Except.ok () →
        (UdpSender.send_rfc5424 s sev mi el m o).2.socket.delivered.map Prod.snd
          = s.socket.delivered.map Prod.snd ++ [s.context.format_rfc5424 sev mi el (some m)])
    ∧ (∀ s f (o : IoResult Nat),
        (UdpSender.send_formatted s f o).2.socket.attempts
          = s.socket.attempts ++ [DatagramOp.send f])
    ∧ (∀ s f (o : IoResult Nat) e, (UdpSender.send_formatted s f o).1 = Except.error e →
        (UdpSender.send_formatted s f o).2.socket.delivered = s.socket.delivered)
    ∧ (∀ s f (o : IoResult Nat), (UdpSender.send_formatted s f o).1 = Except.ok () →
        (UdpSender.send_formatted s f o).2.socket.delivered.map Prod.snd
          = s.socket.delivered.map Prod.snd ++ [f])
    ∧ (∀ s f (o : IoResult Nat),
        (BroadcastSender.send_formatted s f o).2.socket.attempts
          = s.socket.attempts ++ [DatagramOp.sendTo f s.remote])
    ∧ (∀ s f (o : IoResult Nat) e,
        (BroadcastSender.send_formatted s f o).1 = Except.error e →
        (BroadcastSender.send_formatted s f o).2.socket.delivered = s.socket.delivered)
    ∧ (∀ s f (o : IoResult Nat), (BroadcastSender.send_formatted s f o).1 = Except.ok () →
        (BroadcastSender.send_formatted s f o).2.socket.delivered
          = s.socket.delivered ++ [(s.remote, f)])
    ∧ (∀ s sev m (o : IoResult Nat),
        (BroadcastSender.send_rfc3164 s sev m o).2.socket.attempts
          = s.socket.attempts ++ [DatagramOp.send (s.context.format_rfc3164 sev (some m))])
    ∧ (∀ s sev m (o : IoResult Nat) e,
        (BroadcastSender.send_rfc3164 s sev m o).1 = Except.error e →
        (BroadcastSender.send_rfc3164 s sev m o).2.socket.delivered = s.socket.delivered)
    ∧ (∀ s sev m (o : IoResult Nat),
        (BroadcastSender.send_rfc3164 s sev m o).1 = Except.ok () →
        (BroadcastSender.send_rfc3164 s sev m o).2.socket.delivered.map Prod.snd
          = s.socket.delivered.map Prod.snd ++ [s.context.format_rfc3164 sev (some m)])
    ∧ (∀ s sev mi el m (o : IoResult Nat),
        (BroadcastSender.send_rfc5424 s sev mi el m o).2.socket.attempts
          = s.socket.attempts
              ++ [DatagramOp.send (s.context.format_rfc5424 sev mi el (some m))])
    ∧ (∀ s sev mi el m (o : IoResult Nat) e,
        (BroadcastSender.send_rfc5424 s sev mi el m o).1 = Except.error e →
        (BroadcastSender.send_rfc5424 s sev mi el m o).2.socket.delivered
          = s.socket.delivered)
    ∧ (∀ s sev mi el m (o : IoResult Nat),
        (BroadcastSender.send_rfc5424 s sev mi el m o).1 = Except.ok () →
        (BroadcastSender.send_rfc5424 s sev mi el m o).2.socket.delivered.map Prod.snd
          = s.socket.delivered.map Prod.snd ++ [s.context.format_rfc5424 sev mi el (some m)])
    ∧ (∀ s sev m (o : IoResult Nat), (RustlsSender.send_rfc3164 s sev m o).1 = Except.ok () →
        (RustlsSender.send_rfc3164 s sev m o).2.writer.buffered
          = s.writer.buffered ++ [s.context.format_rfc3164 sev (some m)])
    ∧ (∀ s sev m (o : IoResult Nat) e,
        (RustlsSender.send_rfc3164 s sev m o).1 = Except.error e →
        (RustlsSender.send_rfc3164 s sev m o).2.writer.buffered = s.writer.buffered)
    ∧ (∀ s sev mi el m (o : IoResult Nat),
        (RustlsSender.send_rfc5424 s sev mi el m o).1 = Except.ok () →
        (RustlsSender.send_rfc5424 s sev mi el m o).2.writer.buffered
          = s.writer.buffered ++ [s.context.format_rfc5424 sev mi el (some m)])
    ∧ (∀ s sev mi el m (o : IoResult Nat) e,
        (RustlsSender.send_rfc5424 s sev mi el m o).1 = Except.error e →
        (RustlsSender.send_rfc5424 s sev mi el m o).2.writer.buffered = s.writer.buffered)
    ∧ (∀ s f (o : IoResult Nat), (RustlsSender.send_formatted s f o).1 = Except.ok () →
        (RustlsSender.send_formatted s f o).2.writer.buffered
          = s.writer.buffered ++ [f ++ s.postfixStr])
    ∧ (∀ s f (o : IoResult Nat) e, (RustlsSender.send_formatted s f o).1 = Except.error e →
        (RustlsSender.send_formatted s f o).2.writer.buffered = s.writer.buffered) := by
  refine ⟨?_, ?_, ?_, ?_, ?_, ?_, ?_, ?_, ?_, ?_, ?_, ?_, ?_, ?_, ?_, ?_, ?_, ?_,
    ?_, ?_, ?_, ?_, ?_, ?_⟩
  · intro s sev m o
    rcases s with ⟨⟨conn, bc, att, del⟩, ctx⟩
    cases conn <;> cases o <;> rfl
  · intro s sev m o e h
    rcases s with ⟨⟨conn, bc, att, del⟩, ctx⟩
    cases conn <;> cases o
    · rfl
    · rfl
    · rfl
    · simp [UdpSender.send_rfc3164, UdpSocket.sendPrim] at h
  · intro s sev m o h
    rcases s with ⟨⟨conn, bc, att, del⟩, ctx⟩
    cases conn <;> cases o
    · simp [UdpSender.send_rfc3164, UdpSocket.sendPrim] at h
    · simp [UdpSender.send_rfc3164, UdpSocket.sendPrim] at h
    · simp [UdpSender.send_rfc3164, UdpSocket.sendPrim] at h
    · simp [UdpSender.send_rfc3164, UdpSocket.sendPrim]
  · intro s sev mi el m o
    rcases s with ⟨⟨conn, bc, att, del⟩, ctx⟩
    cases conn <;> cases o <;> rfl
  · intro s sev mi el m o e h
    rcases s with ⟨⟨conn, bc, att, del⟩, ctx⟩
    cases conn <;> cases o
    · rfl
    · rfl
    · rfl
    · simp [UdpSender.send_rfc5424, UdpSocket.sendPrim] at h
  · intro s sev mi el m o h
    rcases s with ⟨⟨conn, bc, att, del⟩, ctx⟩
    cases conn <;> cases o
    · simp [UdpSender.send_rfc5424, UdpSocket.sendPrim] at h
    · simp [UdpSender.send_rfc5424, UdpSocket.sendPrim] at h
    · simp [UdpSender.send_rfc5424, UdpSocket.sendPrim] at h
    · simp [UdpSender.send_rfc5424, UdpSocket.sendPrim]
  · intro s f o
    rcases s with ⟨⟨conn, bc, att, del⟩, ctx⟩
    cases conn <;> cases o <;> rfl
  · intro s f o e h
    rcases s with ⟨⟨conn, bc, att, del⟩, ctx⟩
    cases conn <;> cases o
    · rfl
    · rfl
    · rfl
    · simp [UdpSender.send_formatted, UdpSocket.sendPrim] at h
  · intro s f o h
    rcases s with ⟨⟨conn, bc, att, del⟩, ctx⟩
    cases conn <;> cases o
    · simp [UdpSender.send_formatted, UdpSocket.sendPrim] at h
    · simp [UdpSender.send_formatted, UdpSocket.sendPrim] at h
    · simp [UdpSender.send_formatted, UdpSocket.sendPrim] at h
    · simp [UdpSender.send_formatted, UdpSocket.sendPrim]
  · intro s f o
    rcases s with ⟨⟨conn, bc, att, del⟩, rem, ctx⟩
    cases o <;> rfl
  · intro s f o e h
    rcases s with ⟨⟨conn, bc, att, del⟩, rem, ctx⟩
    cases o
    · rfl
    · simp [BroadcastSender.send_formatted, UdpSocket.sendToPrim] at h
  · intro s f o h
    rcases s with ⟨⟨conn, bc, att, del⟩, rem, ctx⟩
    cases o
    · simp [BroadcastSender.send_formatted, UdpSocket.sendToPrim] at h
    · rfl
  · intro s sev m o
    rcases s with ⟨⟨conn, bc, att, del⟩, rem, ctx⟩
    cases conn <;> cases o <;> rfl
  · intro s sev m o e h
    rcases s with ⟨⟨conn, bc, att, del⟩, rem, ctx⟩
    cases conn <;> cases o
    · rfl
    · rfl
    · rfl
    · simp [BroadcastSender.send_rfc3164, UdpSocket.sendPrim] at h
  · intro s sev m o h
    rcases s with ⟨⟨conn, bc, att, del⟩, rem, ctx⟩
    cases conn <;> cases o
    · simp [BroadcastSender.send_rfc3164, UdpSocket.sendPrim] at h
    · simp [BroadcastSender.send_rfc3164, UdpSocket.sendPrim] at h
    · simp [BroadcastSender.send_rfc3164, UdpSocket.sendPrim] at h
    · simp [BroadcastSender.send_rfc3164, UdpSocket.sendPrim]
  · intro s sev mi el m o
    rcases s with ⟨⟨conn, bc, att, del⟩, rem, ctx⟩
    cases conn <;> cases o <;> rfl
  · intro s sev mi el m o e h
    rcases s with ⟨⟨conn, bc, att, del⟩, rem, ctx⟩
    cases conn <;> cases o
    · rfl
    · rfl
    · rfl
    · simp [BroadcastSender.send_rfc5424, UdpSocket.sendPrim] at h
  · intro s sev mi el m o h
    rcases s with ⟨⟨conn, bc, att, del⟩, rem, ctx⟩
    cases conn <;> cases o
    · simp [BroadcastSender.send_rfc5424, UdpSocket.sendPrim] at h
    · simp [BroadcastSender.send_rfc5424, UdpSocket.sendPrim] at h
    · simp [BroadcastSender.send_rfc5424, UdpSocket.sendPrim] at h
    · simp [BroadcastSender.send_rfc5424, UdpSocket.sendPrim]
  · intro s sev m o h
    cases o
    · simp [RustlsSender.send_rfc3164, StreamWriter.writeAll] at h
    · rfl
  · intro s sev m o e h
    cases o
    · rfl
    · simp [RustlsSender.send_rfc3164, StreamWriter.writeAll] at h
  · intro s sev mi el m o h
    cases o
    · simp [RustlsSender.send_rfc5424, StreamWriter.writeAll] at h
    · rfl
  · intro s sev mi el m o e h
    cases o
    · rfl
    · simp [RustlsSender.send_rfc5424, StreamWriter.writeAll] at h
  · intro s f o h
    cases o
    · simp [RustlsSender.send_formatted, StreamWriter.writeAll] at h
    · rfl
  · intro s f o e h
    cases o
    · rfl
    · simp [RustlsSender.send_formatted, StreamWriter.writeAll] at h

/-- C3 witness: the atomic-handoff theorem applied at a concrete connected
UDP sender, once for a failing socket call (nothing delivered) and once for a
succeeding one (exactly the full rendered message delivered). -/
theorem c3_send_atomic_handoff_witness :
    (UdpSender.send_rfc3164 u1 sev5 "hello"
        (Except.error (IoError.other "wouldblock"))).2.socket.delivered
      = u1.socket.delivered
    ∧ (UdpSender.send_rfc3164 u1 sev5 "hello" (Except.ok 7)).2.socket.delivered.map Prod.snd
      = u1.socket.delivered.map Prod.snd ++ [ctx1.format_rfc3164 sev5 (some "hello")] := by
  refine ⟨?_, ?_⟩
  · exact c3_send_atomic_handoff.2.1 u1 sev5 "hello"
      (Except.error (IoError.other "wouldblock")) (IoError.other "wouldblock") rfl
  · exact c3_send_atomic_handoff.2.2.1 u1 sev5 "hello" (Except.ok 7) rfl
